import Mathlib

/-!
Verification of the snapshot correlation core of `snapshot_server.py` /
`snapshot_client.py` (PoliTOcean snapshot-WebRTC).

The correlation machinery of the server is the module-level pair

  condition = threading.Condition()
  snapshots = dict()

together with the `/api/snapshot` route (`snapshot`), the socket.io handler
`handle_snapshot_response`, and the `/api/snapshot_all` route (`snapshot_all`).
We embed the store as an association list, each lock-protected critical
section as one atomic step, and a capture session as a function of the
schedule of inbound pushes processed while the dispatcher waits.
-/

namespace SnapshotWebRTC

/-- Correlation store: the module-level Python dict `snapshots`, a finite map
from camera id to the last pushed base64 image, as an association list. -/
abbrev Store := List (String × String)

/-- Dictionary lookup, `snapshots.get(camera_id)`; also decides
`camera_id in snapshots` (present iff `isSome`). -/
def Store.get : Store → String → Option String
  | [], _ => none
  | p :: rest, k => if p.1 = k then some p.2 else Store.get rest k

/-- Key removal, `snapshots.pop(camera_id, None)`. -/
def Store.erase : Store → String → Store
  | [], _ => []
  | p :: rest, k => if p.1 = k then Store.erase rest k else p :: Store.erase rest k

/-- Dictionary assignment `snapshots[camera_id] = img_base64`: insert or
overwrite the single slot for the key. -/
def Store.put (s : Store) (k v : String) : Store := (k, v) :: Store.erase s k

/-- Python truthiness of `data.get(...)` for an optional string: `None` and
the empty string are falsy, every other string is truthy. -/
def pyTruthy : Option String → Bool
  | none => false
  | some s => decide (s ≠ "")

/-- One socket.io `snapshot_response` message, with `data.get('id')` and
`data.get('image')` as they arrive (possibly absent). -/
structure PushMsg where
  id : Option String
  image : Option String
deriving Repr, DecidableEq

/-- Validation test `if camera_id and img_base64:` of the inbound handler. -/
def validPush (d : PushMsg) : Bool := pyTruthy d.id && pyTruthy d.image

/-- Embeds `handle_snapshot_response` (snapshot_server.py lines 409-417): on a
valid push it stores the image under the camera id and calls
`condition.notify_all()`, all inside one `with condition:` block; on a
malformed push it does nothing. Returns the store and whether waiters were
notified; the handler has no error outcome. -/
def handle_snapshot_response (s : Store) (d : PushMsg) : Store × Bool :=
  if validPush d then (Store.put s (d.id.getD "") (d.image.getD ""), true)
  else (s, false)

/-- Schedule of inbound pushes processed while a dispatcher waits, each tagged
with its arrival time in seconds from the start of the wait. -/
abbrev Schedule := List (Nat × PushMsg)

/-- Wait bound of `condition.wait(timeout=5)` in the `/api/snapshot` route. -/
def deadline : Nat := 5

/-- Store after a sequence of inbound pushes has been handled. -/
def applyPushes (s : Store) : Schedule → Store
  | [] => s
  | p :: rest => applyPushes (handle_snapshot_response s p.2).1 rest

/-- Index of the first push that calls `condition.notify_all()`, i.e. the
first valid one; a single `condition.wait` wakes there. -/
def notifyIdx : Schedule → Option Nat
  | [] => none
  | p :: rest => if validPush p.2 then some 0 else (notifyIdx rest).map (· + 1)

/-- Whether `condition.wait(timeout=5)` returned `True`: some push before the
deadline called `notify_all`. -/
def waitReceived (ps : Schedule) : Bool := (notifyIdx ps).isSome

/-- Arrival time of the push that wakes the single wait, when one exists. -/
def wakeTime (ps : Schedule) : Option Nat :=
  match notifyIdx ps with
  | none => none
  | some i => (ps.get? i).map (·.1)

/-- Pushes handled before the waiter's single predicate check: the waiter is
woken by the first notifying push, and `lag` further pushes may be handled
before it reacquires the lock; if no push notifies, the wait times out after
every push of the window ran. -/
def checkedPushes (ps : Schedule) (lag : Nat) : Schedule :=
  match notifyIdx ps with
  | none => ps
  | some i => ps.take (i + 1 + lag)

/-- Store at the moment the route's check `camera_id not in snapshots` runs:
the slot was popped at session start, then the handled pushes applied. -/
def storeAtCheck (s : Store) (cid : String) (ps : Schedule) (lag : Nat) : Store :=
  applyPushes (Store.erase s cid) (checkedPushes ps lag)

/-- HTTP outcome of the `/api/snapshot` route: 400 Missing id, 504 Timeout or
no snapshot received, or 200 with the image. -/
inductive SnapResult where
  | missingId
  | timeout
  | image (img : String)
deriving Repr, DecidableEq

/-- Outcome of one capture session: the store it leaves behind, the HTTP
result, and the camera ids for which a `take_snapshot` command was emitted. -/
structure SnapOutcome where
  store : Store
  result : SnapResult
  emitted : List String
deriving Repr, DecidableEq

/-- Embeds the `/api/snapshot` route (snapshot_server.py lines 392-407): if
the query parameter id is missing or empty, return 400 at once; otherwise pop
the slot, emit `take_snapshot`, perform one `condition.wait(timeout=5)`, and
on wake (or timeout) check `camera_id not in snapshots` once — popping and
returning the image on success, returning 504 otherwise. `ps` is the schedule
of pushes delivered during the wait and `lag` the number of pushes handled
between the waking notify and the lock reacquisition. -/
def snapshot (s : Store) (camera_id : Option String) (ps : Schedule) (lag : Nat) : SnapOutcome :=
  if pyTruthy camera_id then
    let cid := camera_id.getD ""
    let s2 := storeAtCheck s cid ps lag
    if waitReceived ps = false ∨ Store.get s2 cid = none then
      ⟨s2, SnapResult.timeout, [cid]⟩
    else
      ⟨Store.erase s2 cid, SnapResult.image ((Store.get s2 cid).getD ""), [cid]⟩
  else ⟨s, SnapResult.missingId, []⟩

/-- Server state seen by the condition variable: the store plus the waiters
blocked in `condition.wait` and those already signalled. -/
structure ServerState where
  store : Store
  waiting : List String
  woken : List String
deriving Repr, DecidableEq

/-- One atomic `with condition:` critical section of the inbound handler: the
map mutation and `condition.notify_all()` (which signals every blocked
waiter) happen in the same step, mutation first. -/
def putStep (st : ServerState) (d : PushMsg) : ServerState :=
  let r := handle_snapshot_response st.store d
  if r.2 then ⟨r.1, [], st.woken ++ st.waiting⟩ else ⟨r.1, st.waiting, st.woken⟩

/-- HTTP outcome of the `/api/snapshot_all` route. -/
inductive SnapshotAllResult where
  | serverError (msg : String)
  | timeout
  | success (m : Store)
deriving Repr, DecidableEq

/-- Embeds the `/api/snapshot_all` route (snapshot_server.py lines 374-383):
its body calls `test_multiple_snapshots_internal`, a name defined nowhere in
the module, so every request raises NameError, which the surrounding
`except Exception` clause turns into a 500 server error. No store, wait or
push is consulted: the schedule of arriving pushes is ignored. -/
def snapshot_all (_ps : Schedule) : SnapshotAllResult :=
  SnapshotAllResult.serverError "NameError: test_multiple_snapshots_internal is not defined"

/-- Result of the fixed-subset (stereo) endpoint. -/
inductive StereoResult where
  | timeout
  | success (m : Store)
deriving Repr, DecidableEq

/-- Sub-map of the stereo pair (cameras "1" and "2") present in a store. -/
def pairSubmap (s : Store) : Store :=
  (match Store.get s "1" with
   | some v => [("1", v)]
   | none => []) ++
  (match Store.get s "2" with
   | some v => [("2", v)]
   | none => [])

/-- Modelled from the spec: the server-side fixed-subset (stereo) handler behind
`/api/snapshot_stereo` is absent from the sources — only its client-side caller
`take_snapshot_stereo` (snapshot_client.py lines 154-193, the pair being
cameras 1 and 2) exists. Following spec section 4.6: the store is scoped to the
two known keys and cleared for them at session start; the predicate as
authored is that any push batch has arrived — it does not check that both
members of the pair are present before unblocking; on success the session
returns whatever subset of the pair arrived before the first notify plus
anything merged into that same batch; expiry with no push is a timeout. -/
def snapshot_stereo (s : Store) (ps : Schedule) (lag : Nat) : StereoResult :=
  let s1 := Store.erase (Store.erase s "1") "2"
  let s2 := applyPushes s1 (checkedPushes ps lag)
  if waitReceived ps then StereoResult.success (pairSubmap s2) else StereoResult.timeout

/-- Payload of the last valid push for a key within a schedule. -/
def lastPutFor : Schedule → String → Option String
  | [], _ => none
  | p :: rest, k =>
    match lastPutFor rest k with
    | some v => some v
    | none =>
      if validPush p.2 ∧ p.2.id.getD "" = k then some (p.2.image.getD "") else none

/- Basic store lemmas. -/

theorem Store.get_erase_self (s : Store) (k : String) :
    Store.get (Store.erase s k) k = none := by
  induction s with
  | nil => rfl
  | cons p rest ih =>
    by_cases h : p.1 = k <;> simp [Store.erase, Store.get, h, ih]

theorem Store.get_erase_ne (s : Store) (k j : String) (h : k ≠ j) :
    Store.get (Store.erase s k) j = Store.get s j := by
  induction s with
  | nil => rfl
  | cons p rest ih =>
    by_cases hp : p.1 = k
    · simp [Store.erase, Store.get, hp, ih, h]
    · by_cases hj : p.1 = j <;>
        simp [Store.erase, Store.get, hp, hj, ih, Ne.symm h]

theorem Store.get_put_self (s : Store) (k v : String) :
    Store.get (Store.put s k v) k = some v := by
  simp [Store.put, Store.get]

theorem Store.get_put_ne (s : Store) (k v j : String) (h : k ≠ j) :
    Store.get (Store.put s k v) j = Store.get s j := by
  simp [Store.put, Store.get, h, Store.get_erase_ne s k j h]

theorem pyTruthy_some_iff (o : Option String) :
    pyTruthy o = true ↔ ∃ x, o = some x ∧ x ≠ "" := by
  cases o with
  | none => simp [pyTruthy]
  | some s => simp [pyTruthy]

theorem validPush_getD (d : PushMsg) (h : validPush d = true) :
    d.id = some (d.id.getD "") ∧ d.image = some (d.image.getD "") := by
  unfold validPush at h
  rw [Bool.and_eq_true] at h
  obtain ⟨h1, h2⟩ := h
  rw [pyTruthy_some_iff] at h1 h2
  obtain ⟨x, hx, -⟩ := h1
  obtain ⟨y, hy, -⟩ := h2
  simp [hx, hy]

theorem get_applyPushes (ps : Schedule) (s : Store) (k : String) :
    Store.get (applyPushes s ps) k =
      match lastPutFor ps k with
      | some v => some v
      | none => Store.get s k := by
  induction ps generalizing s with
  | nil => rfl
  | cons p rest ih =>
    rw [applyPushes, lastPutFor, ih]
    cases hrest : lastPutFor rest k with
    | some v => rfl
    | none =>
      by_cases hv : validPush p.2
      · rw [handle_snapshot_response, if_pos hv]
        by_cases hk : p.2.id.getD "" = k
        · rw [hk]
          simp [hv, Store.get_put_self]
        · simp [hv, hk, Store.get_put_ne s _ _ k hk]
      · rw [handle_snapshot_response, if_neg hv]
        simp [hv]

theorem get_applyPushes_of_lastPut (ps : Schedule) (s : Store) (k v : String)
    (h : lastPutFor ps k = some v) :
    Store.get (applyPushes s ps) k = some v := by
  rw [get_applyPushes, h]

theorem get_applyPushes_of_noPut (ps : Schedule) (s : Store) (k : String)
    (h : lastPutFor ps k = none) :
    Store.get (applyPushes s ps) k = Store.get s k := by
  rw [get_applyPushes, h]

theorem pyTruthy_some_of_ne (cid : String) (h : cid ≠ "") :
    pyTruthy (some cid) = true := by
  simp [pyTruthy, h]

theorem snapshot_valid_eq (s : Store) (cid : String) (ps : Schedule) (lag : Nat)
    (h : cid ≠ "") :
    snapshot s (some cid) ps lag =
      if waitReceived ps = false ∨ Store.get (storeAtCheck s cid ps lag) cid = none then
        ⟨storeAtCheck s cid ps lag, SnapResult.timeout, [cid]⟩
      else
        ⟨Store.erase (storeAtCheck s cid ps lag) cid,
          SnapResult.image ((Store.get (storeAtCheck s cid ps lag) cid).getD ""), [cid]⟩ := by
  simp only [snapshot, pyTruthy_some_of_ne cid h, if_true, Option.getD_some]

theorem waitReceived_singleton (t : Nat) (d : PushMsg) (h : validPush d = true) :
    waitReceived [(t, d)] = true := by
  simp [waitReceived, notifyIdx, h]

theorem wakeTime_singleton (t : Nat) (d : PushMsg) (h : validPush d = true) :
    wakeTime [(t, d)] = some t := by
  simp [wakeTime, notifyIdx, h]

theorem checkedPushes_singleton (t : Nat) (d : PushMsg) (lag : Nat) (h : validPush d = true) :
    checkedPushes [(t, d)] lag = [(t, d)] := by
  rw [checkedPushes]
  simp only [notifyIdx, h, if_true]
  exact List.take_of_length_le (by simp)

theorem storeAtCheck_singleton (s : Store) (cid : String) (t : Nat) (d : PushMsg) (lag : Nat)
    (h : validPush d = true) :
    storeAtCheck s cid [(t, d)] lag =
      Store.put (Store.erase s cid) (d.id.getD "") (d.image.getD "") := by
  rw [storeAtCheck, checkedPushes_singleton t d lag h]
  simp [applyPushes, handle_snapshot_response, h]

/- Claim theorems. -/

/-- C1 (counterexample): with camera id "1" requested and a single valid push
for the different camera "2" arriving at second 1 of the wait, the session is
woken (the wait received a notify at time 1, before the 5-second deadline) and
returns the timeout result unsatisfied — refuting the claim that
`wait_and_take` never returns unsatisfied before the deadline. -/
theorem snapshot_unsatisfied_return_before_deadline :
    (snapshot [] (some "1") [(1, PushMsg.mk (some "2") (some "p"))] 0).result
      = SnapResult.timeout
    ∧ waitReceived [(1, PushMsg.mk (some "2") (some "p"))] = true
    ∧ wakeTime [(1, PushMsg.mk (some "2") (some "p"))] = some 1
    ∧ 1 < deadline := by
  refine ⟨?_, ?_, ?_, ?_⟩ <;> decide

/-- C1 (amended): for a valid single-target session, the wait is a single
`condition.wait` with one predicate check at wake: the session returns the
timeout result exactly when either no push notified before the deadline or
the requested key is absent from the store at the moment of that single
check — so a wake caused by another key's put may end the session
unsatisfied before the deadline. -/
theorem snapshot_timeout_iff_single_check (s : Store) (cid : String) (ps : Schedule)
    (lag : Nat) (h : cid ≠ "") :
    (snapshot s (some cid) ps lag).result = SnapResult.timeout ↔
      (waitReceived ps = false ∨ Store.get (storeAtCheck s cid ps lag) cid = none) := by
  rw [snapshot_valid_eq s cid ps lag h]
  by_cases hc : waitReceived ps = false ∨ Store.get (storeAtCheck s cid ps lag) cid = none
  · simp [hc]
  · simp [hc]

/-- C1 (witness). -/
theorem snapshot_timeout_iff_single_check_witness :
    (snapshot [] (some "1") [] 0).result = SnapResult.timeout ↔
      (waitReceived ([] : Schedule) = false
        ∨ Store.get (storeAtCheck [] "1" [] 0) "1" = none) :=
  snapshot_timeout_iff_single_check [] "1" [] 0 (by decide)

/-- C2 (code evaluated at the failing input): the `/api/snapshot_all` route
always returns a 500 server error — its body calls the undefined name
`test_multiple_snapshots_internal`, so whatever pushes arrive it never
produces the timeout variant and never a success (empty or not). The claim
that a push-less broadcast session returns the timeout variant fails. -/
theorem snapshot_all_always_server_error :
    (∀ ps : Schedule, snapshot_all ps
        = SnapshotAllResult.serverError
            "NameError: test_multiple_snapshots_internal is not defined")
    ∧ (∀ ps : Schedule, snapshot_all ps ≠ SnapshotAllResult.timeout)
    ∧ (∀ (ps : Schedule) (m : Store), snapshot_all ps ≠ SnapshotAllResult.success m) := by
  refine ⟨fun _ => rfl, fun _ hc => ?_, fun _ _ hc => ?_⟩ <;> simp [snapshot_all] at hc

/-- C3: a fixed-subset (stereo) session that receives only member "1" with a
non-empty payload before its first notify unblocks at that notify and returns
exactly the one-element map of that member — the any-arrival predicate does
not wait for the second member or the deadline. -/
theorem snapshot_stereo_any_arrival (s : Store) (t : Nat) (imgA : String) (h : imgA ≠ "") :
    snapshot_stereo s [(t, PushMsg.mk (some "1") (some imgA))] 0
      = StereoResult.success [("1", imgA)] := by
  have hv : validPush (PushMsg.mk (some "1") (some imgA)) = true := by
    simp [validPush, pyTruthy, h]
  have h1 : Store.get (Store.put (Store.erase (Store.erase s "1") "2") "1" imgA) "1"
      = some imgA := Store.get_put_self _ _ _
  have h2 : Store.get (Store.put (Store.erase (Store.erase s "1") "2") "1" imgA) "2"
      = none := by
    rw [Store.get_put_ne _ _ _ _ (by decide), Store.get_erase_self]
  simp [snapshot_stereo, checkedPushes_singleton t _ 0 hv,
    waitReceived_singleton t _ hv, applyPushes, handle_snapshot_response, hv,
    pairSubmap, h1, h2]

/-- C3 (witness). -/
theorem snapshot_stereo_any_arrival_witness :
    snapshot_stereo [] [(0, PushMsg.mk (some "1") (some "a"))] 0
      = StereoResult.success [("1", "a")] :=
  snapshot_stereo_any_arrival [] 0 "a" (by decide)

/-- C4: when a valid single-target session for a key returns an image, that
image is exactly the payload of the last valid push for the key handled
before the session's predicate check, and the key is absent from the store
the session leaves behind (the slot was consumed by the final pop). -/
theorem snapshot_success_last_put_and_consumed (s : Store) (cid : String) (ps : Schedule)
    (lag : Nat) (v : String) (h : cid ≠ "")
    (hres : (snapshot s (some cid) ps lag).result = SnapResult.image v) :
    lastPutFor (checkedPushes ps lag) cid = some v
    ∧ Store.get (snapshot s (some cid) ps lag).store cid = none := by
  rw [snapshot_valid_eq s cid ps lag h] at hres ⊢
  by_cases hc : waitReceived ps = false ∨ Store.get (storeAtCheck s cid ps lag) cid = none
  · rw [if_pos hc] at hres
    exact absurd hres (by simp)
  · rw [if_neg hc] at hres ⊢
    push_neg at hc
    obtain ⟨hrecv, hget⟩ := hc
    obtain ⟨w, hw⟩ := Option.ne_none_iff_exists'.mp hget
    have hv : w = v := by
      rw [hw] at hres
      simpa using hres
    subst hv
    refine ⟨?_, ?_⟩
    · have hw' : Store.get (applyPushes (Store.erase s cid) (checkedPushes ps lag)) cid
          = some w := hw
      cases hl : lastPutFor (checkedPushes ps lag) cid with
      | some u =>
        rw [get_applyPushes_of_lastPut _ _ _ u hl] at hw'
        exact hw'
      | none =>
        rw [get_applyPushes_of_noPut _ _ _ hl, Store.get_erase_self] at hw'
        exact absurd hw' (by simp)
    · exact Store.get_erase_self _ _

/-- C4 (witness): two valid pushes for camera "1" arrive during the wait and
both are handled before the check; the session returns the second payload and
leaves the key absent. -/
theorem snapshot_success_last_put_and_consumed_witness :
    lastPutFor
        (checkedPushes
          [(0, PushMsg.mk (some "1") (some "a")), (1, PushMsg.mk (some "1") (some "b"))] 1)
        "1" = some "b"
    ∧ Store.get
        (snapshot []
          (some "1")
          [(0, PushMsg.mk (some "1") (some "a")), (1, PushMsg.mk (some "1") (some "b"))]
          1).store "1" = none :=
  snapshot_success_last_put_and_consumed []
    "1" [(0, PushMsg.mk (some "1") (some "a")), (1, PushMsg.mk (some "1") (some "b"))] 1 "b"
    (by decide) (by decide)

/-- C5: a single-target request with a missing or empty id is rejected at once
with the 400 validation result, distinct from the timeout variant; the store
is untouched (no clear), no capture command is emitted, and the outcome is
the same whatever pushes would have arrived (no wait happens). -/
theorem snapshot_missing_id_rejected (s : Store) (ps : Schedule) (lag : Nat) :
    snapshot s none ps lag = ⟨s, SnapResult.missingId, []⟩
    ∧ snapshot s (some "") ps lag = ⟨s, SnapResult.missingId, []⟩
    ∧ SnapResult.missingId ≠ SnapResult.timeout := by
  refine ⟨?_, ?_, by simp⟩ <;> simp [snapshot, pyTruthy]

/-- C6: for a valid single-target session, every timeout outcome leaves the
store exactly as it was at the moment the wait ended (the error path performs
no removal); total silence from the agents yields the timeout variant with
only the initial pop applied; and the timeout variant is distinguishable from
the validation variant. -/
theorem snapshot_timeout_distinct_no_removal (s : Store) (cid : String) (ps : Schedule)
    (lag : Nat) (h : cid ≠ "") :
    ((snapshot s (some cid) ps lag).result = SnapResult.timeout →
        (snapshot s (some cid) ps lag).store = storeAtCheck s cid ps lag)
    ∧ snapshot s (some cid) [] lag = ⟨Store.erase s cid, SnapResult.timeout, [cid]⟩
    ∧ SnapResult.timeout ≠ SnapResult.missingId := by
  refine ⟨?_, ?_, by simp⟩
  · rw [snapshot_valid_eq s cid ps lag h]
    by_cases hc : waitReceived ps = false ∨ Store.get (storeAtCheck s cid ps lag) cid = none
    · rw [if_pos hc]
      intro
      rfl
    · rw [if_neg hc]
      intro hres
      exact absurd hres (by simp)
  · rw [snapshot_valid_eq s cid [] lag h]
    have h1 : waitReceived ([] : Schedule) = false := rfl
    have h2 : storeAtCheck s cid [] lag = Store.erase s cid := rfl
    rw [if_pos (Or.inl h1), h2]

/-- C6 (witness). -/
theorem snapshot_timeout_distinct_no_removal_witness :
    snapshot [] (some "1") [] 0 = ⟨Store.erase [] "1", SnapResult.timeout, ["1"]⟩ :=
  (snapshot_timeout_distinct_no_removal [] "1" [] 0 (by decide)).2.1

/-- C7: an inbound push whose id or image is absent or empty is dropped
silently: the store is unchanged, no waiter is signalled (the whole condition
step is a no-op), and the handler has no error outcome to surface. -/
theorem malformed_push_dropped (s : Store) (st : ServerState) (d : PushMsg)
    (h : validPush d = false) :
    handle_snapshot_response s d = (s, false) ∧ putStep st d = st := by
  have h1 : handle_snapshot_response st.store d = (st.store, false) := by
    simp [handle_snapshot_response, h]
  refine ⟨by simp [handle_snapshot_response, h], ?_⟩
  simp [putStep, h1]

/-- C7 (witness): a push with an empty image is dropped. -/
theorem malformed_push_dropped_witness :
    handle_snapshot_response [] (PushMsg.mk (some "1") (some "")) = ([], false)
    ∧ putStep (ServerState.mk [] ["w"] []) (PushMsg.mk (some "1") (some ""))
        = ServerState.mk [] ["w"] [] :=
  malformed_push_dropped [] (ServerState.mk [] ["w"] []) (PushMsg.mk (some "1") (some ""))
    (by decide)

/-- C8: a valid put both overwrites the slot and signals, within one atomic
critical section: the handler reports the notify together with a store that
already holds the new binding (notify only after the map mutation), and the
condition step moves every blocked waiter to the signalled set, so a put
performed before a predicate check cannot be missed. -/
theorem put_mutates_before_notify_all (st : ServerState) (k v : String)
    (hk : k ≠ "") (hv : v ≠ "") :
    (handle_snapshot_response st.store (PushMsg.mk (some k) (some v))).2 = true
    ∧ (handle_snapshot_response st.store (PushMsg.mk (some k) (some v))).1
        = Store.put st.store k v
    ∧ Store.get (handle_snapshot_response st.store (PushMsg.mk (some k) (some v))).1 k
        = some v
    ∧ (putStep st (PushMsg.mk (some k) (some v))).store = Store.put st.store k v
    ∧ (putStep st (PushMsg.mk (some k) (some v))).waiting = []
    ∧ ∀ w ∈ st.waiting, w ∈ (putStep st (PushMsg.mk (some k) (some v))).woken := by
  have hvp : validPush (PushMsg.mk (some k) (some v)) = true := by
    simp [validPush, pyTruthy, hk, hv]
  have hh : handle_snapshot_response st.store (PushMsg.mk (some k) (some v))
      = (Store.put st.store k v, true) := by
    simp [handle_snapshot_response, hvp]
  refine ⟨by rw [hh], by rw [hh], by rw [hh]; exact Store.get_put_self _ _ _, ?_, ?_, ?_⟩
  · simp [putStep, hh]
  · simp [putStep, hh]
  · intro w hw
    simp only [putStep, hh, if_true, List.mem_append]
    exact Or.inr hw

/-- C8 (witness). -/
theorem put_mutates_before_notify_all_witness :
    (handle_snapshot_response [] (PushMsg.mk (some "1") (some "p"))).2 = true
    ∧ "w" ∈ (putStep (ServerState.mk [] ["w"] []) (PushMsg.mk (some "1") (some "p"))).woken :=
  ⟨(put_mutates_before_notify_all (ServerState.mk [] ["w"] []) "1" "p"
      (by decide) (by decide)).1,
   (put_mutates_before_notify_all (ServerState.mk [] ["w"] []) "1" "p"
      (by decide) (by decide)).2.2.2.2.2 "w" (by decide)⟩

/-- C9: a successful single-target session removes only the requested key's
slot: for every other key, the store the session leaves behind agrees with
the store at the moment the wait was satisfied. -/
theorem snapshot_success_frame (s : Store) (cid j : String) (ps : Schedule) (lag : Nat)
    (v : String) (h : cid ≠ "")
    (hres : (snapshot s (some cid) ps lag).result = SnapResult.image v) (hj : cid ≠ j) :
    Store.get (snapshot s (some cid) ps lag).store j
      = Store.get (storeAtCheck s cid ps lag) j := by
  rw [snapshot_valid_eq s cid ps lag h] at hres ⊢
  by_cases hc : waitReceived ps = false ∨ Store.get (storeAtCheck s cid ps lag) cid = none
  · rw [if_pos hc] at hres
    exact absurd hres (by simp)
  · rw [if_neg hc]
    exact Store.get_erase_ne _ _ _ hj

/-- C9 (witness): a pending slot for camera "9" survives a successful session
for camera "1" unchanged. -/
theorem snapshot_success_frame_witness :
    Store.get
        (snapshot [("9", "z")] (some "1") [(0, PushMsg.mk (some "1") (some "a"))] 0).store "9"
      = Store.get (storeAtCheck [("9", "z")] "1" [(0, PushMsg.mk (some "1") (some "a"))] 0) "9" :=
  snapshot_success_frame [("9", "z")] "1" "9" [(0, PushMsg.mk (some "1") (some "a"))] 0 "a"
    (by decide) (by decide) (by decide)

/-- C10: a single-target session for one key woken by the notify of a valid
push for a different key finds its own key absent at the single predicate
check and returns the timeout result at that wake, even though the wake time
is strictly before the deadline. -/
theorem wake_by_other_key_returns_timeout (s : Store) (cid b img : String) (t lag : Nat)
    (hcid : cid ≠ "") (hb : b ≠ "") (hne : b ≠ cid) (himg : img ≠ "")
    (ht : t < deadline) :
    (snapshot s (some cid) [(t, PushMsg.mk (some b) (some img))] lag).result
      = SnapResult.timeout
    ∧ waitReceived [(t, PushMsg.mk (some b) (some img))] = true
    ∧ wakeTime [(t, PushMsg.mk (some b) (some img))] = some t
    ∧ Store.get (storeAtCheck s cid [(t, PushMsg.mk (some b) (some img))] lag) cid = none
    ∧ t < deadline := by
  have hvp : validPush (PushMsg.mk (some b) (some img)) = true := by
    simp [validPush, pyTruthy, hb, himg]
  have hst : storeAtCheck s cid [(t, PushMsg.mk (some b) (some img))] lag
      = Store.put (Store.erase s cid) b img :=
    storeAtCheck_singleton s cid t _ lag hvp
  have hget : Store.get (storeAtCheck s cid [(t, PushMsg.mk (some b) (some img))] lag) cid
      = none := by
    rw [hst, Store.get_put_ne _ _ _ _ hne, Store.get_erase_self]
  refine ⟨?_, waitReceived_singleton t _ hvp, wakeTime_singleton t _ hvp, hget, ht⟩
  rw [snapshot_valid_eq s cid _ lag hcid, if_pos (Or.inr hget)]

/-- C10 (witness). -/
theorem wake_by_other_key_returns_timeout_witness :
    (snapshot [] (some "1") [(2, PushMsg.mk (some "3") (some "q"))] 0).result
      = SnapResult.timeout
    ∧ waitReceived [(2, PushMsg.mk (some "3") (some "q"))] = true
    ∧ wakeTime [(2, PushMsg.mk (some "3") (some "q"))] = some 2
    ∧ Store.get (storeAtCheck [] "1" [(2, PushMsg.mk (some "3") (some "q"))] 0) "1" = none
    ∧ 2 < deadline :=
  wake_by_other_key_returns_timeout [] "1" "3" "q" 2 0
    (by decide) (by decide) (by decide) (by decide) (by decide)

end SnapshotWebRTC
